import Mathlib

/-!
Verification development for the curve query subsystem of a Bézier curve
library (`src/bezier/lookup.rs`).  The numeric type `f64` is embedded as the
exact rationals `ℚ`; places where the behaviour of the source depends on
non-finite `f64` values (NaN, infinity) or on rounding are flagged in the
doc comments of the definitions concerned.
-/

namespace BezierRs

/-- Modelled from the spec: a 2D point (called Point2D in the spec, DVec2 in
the source), with exact rational coordinates standing in for f64. -/
structure DVec2 where
  x : ℚ
  y : ℚ
  deriving DecidableEq, Repr

instance : Add DVec2 := ⟨fun a b => ⟨a.x + b.x, a.y + b.y⟩⟩

instance : Sub DVec2 := ⟨fun a b => ⟨a.x - b.x, a.y - b.y⟩⟩

instance : HMul ℚ DVec2 DVec2 := ⟨fun q v => ⟨q * v.x, q * v.y⟩⟩

theorem DVec2.ext2 {a b : DVec2} (hx : a.x = b.x) (hy : a.y = b.y) : a = b := by
  cases a; cases b; cases hx; cases hy; rfl

theorem DVec2.add_def (a b : DVec2) : a + b = ⟨a.x + b.x, a.y + b.y⟩ := rfl

theorem DVec2.sub_def (a b : DVec2) : a - b = ⟨a.x - b.x, a.y - b.y⟩ := rfl

theorem DVec2.smul_def (q : ℚ) (v : DVec2) : q * v = ⟨q * v.x, q * v.y⟩ := rfl

/-- Modelled from the spec: linear interpolation between two points, the
degree-1 basis of spec section 4.1 (the source delegates to DVec2.lerp of an
external vector library, which computes a + (b - a) * t). -/
def DVec2.lerp (a b : DVec2) (t : ℚ) : DVec2 := a + t * (b - a)

/-- Modelled from the spec: squared Euclidean distance between two points
(the source delegates to DVec2.distance_squared of an external library). -/
def DVec2.distance_squared (a b : DVec2) : ℚ :=
  (a.x - b.x) ^ 2 + (a.y - b.y) ^ 2

/-- Modelled from the spec: a computable stand-in for the f64 square root,
needed only so that the chord-length approximator of spec section 4.4 is
executable.  The exact square root of a rational is in general irrational;
this approximation is monotone-ish and exact on squares of dyadics, and no
claim settled in this development depends on its value. -/
def sqrtQ (q : ℚ) : ℚ :=
  if q ≤ 0 then 0 else (Nat.sqrt (q.num.toNat * q.den) : ℚ) / (q.den : ℚ)

/-- Modelled from the spec: Euclidean norm of a vector, via sqrtQ. -/
def DVec2.length (v : DVec2) : ℚ := sqrtQ (v.x ^ 2 + v.y ^ 2)

/-- Modelled from the spec: the degree-tagged handle set of the curve
representation, spec section 3 (Linear has no control points, Quadratic one,
Cubic two); mirrors the BezierHandles enum of the source crate. -/
inductive BezierHandles where
  | Linear : BezierHandles
  | Quadratic (handle : DVec2) : BezierHandles
  | Cubic (handle_start handle_end : DVec2) : BezierHandles
  deriving DecidableEq, Repr

/-- Modelled from the spec: the immutable curve value of spec section 3,
holding the two endpoints and the handle set.  The end point field is named
end_ because end is a reserved word in Lean. -/
structure Bezier where
  start : DVec2
  end_ : DVec2
  handles : BezierHandles
  deriving DecidableEq, Repr

/-- Modelled from the spec: the ParameterDescriptor (TValue) tagged variant
of spec section 3. -/
inductive TValue where
  | Parametric (t : ℚ) : TValue
  | Euclidean (t : ℚ) : TValue
  | EuclideanWithinError (t : ℚ) (error : ℚ) : TValue
  deriving DecidableEq, Repr

/-- Modelled from the spec: the mode selector of the lookup-table generator,
spec section 4.3; mirrors the TValueType enum of the source crate. -/
inductive TValueType where
  | Parametric : TValueType
  | Euclidean : TValueType
  deriving DecidableEq, Repr

/-- Modelled from the spec: default subdivision count of the length
approximator, spec section 4.4 gives the default value 1000. -/
def DEFAULT_LENGTH_SUBDIVISIONS : ℕ := 1000

/-- Modelled from the spec: default step count of the lookup table, spec
section 4.3 gives the default value 10. -/
def DEFAULT_LUT_STEP_SIZE : ℕ := 10

/-- Modelled from the spec: the fixed default error tolerance used when a
Euclidean descriptor carries no explicit error, spec section 3.  The spec
does not give its numeric value; it is taken to be the positive constant
1/1000, and only its positivity matters in this development. -/
def DEFAULT_EUCLIDEAN_ERROR_BOUND : ℚ := 1 / 1000

/-- Modelled from the spec: the comparison helper of the source crate, true
when the two values are within max_abs_diff of each other (used by the
bisection exit test of spec section 4.5). -/
def f64_compare (f1 f2 max_abs_diff : ℚ) : Bool :=
  decide (|f1 - f2| < max_abs_diff)

/-- Closed-form Bernstein-basis evaluation of the point at parameter t, for
the curve degree fixed by the handle variant; direct translation of
Bezier::unrestricted_parametric_evaluate, lookup.rs lines 83-99. -/
def Bezier.unrestricted_parametric_evaluate (c : Bezier) (t : ℚ) : DVec2 :=
  let t_squared := t * t
  let one_minus_t := 1 - t
  let squared_one_minus_t := one_minus_t * one_minus_t
  match c.handles with
  | BezierHandles.Linear => c.start.lerp c.end_ t
  | BezierHandles.Quadratic handle =>
      squared_one_minus_t * c.start + (2 * one_minus_t * t) * handle + t_squared * c.end_
  | BezierHandles.Cubic handle_start handle_end =>
      let t_cubed := t_squared * t
      let cubed_one_minus_t := squared_one_minus_t * one_minus_t
      cubed_one_minus_t * c.start + (3 * squared_one_minus_t * t) * handle_start
        + (3 * one_minus_t * t_squared) * handle_end + t_cubed * c.end_

/-- Modelled from the spec: the Curve Trimmer collaborator, spec section 6,
returning the sub-curve of the same degree over the parameter interval
between t1 and t2.  The spec gives only this contract; the sub-curve control
points are computed here by the standard de Casteljau blossom, which is the
unique curve of the same degree tracing the original over that interval. -/
def Bezier.trim (c : Bezier) (t1 t2 : ℚ) : Bezier :=
  match c.handles with
  | BezierHandles.Linear =>
      { start := c.start.lerp c.end_ t1
        end_ := c.start.lerp c.end_ t2
        handles := BezierHandles.Linear }
  | BezierHandles.Quadratic handle =>
      let blossom := fun (u v : ℚ) =>
        ((c.start.lerp handle u).lerp (handle.lerp c.end_ u)) v
      { start := blossom t1 t1
        end_ := blossom t2 t2
        handles := BezierHandles.Quadratic (blossom t1 t2) }
  | BezierHandles.Cubic handle_start handle_end =>
      let blossom := fun (u v w : ℚ) =>
        ((((c.start.lerp handle_start u).lerp (handle_start.lerp handle_end u)) v).lerp
          (((handle_start.lerp handle_end u).lerp (handle_end.lerp c.end_ u)) v)) w
      { start := blossom t1 t1 t1
        end_ := blossom t2 t2 t2
        handles := BezierHandles.Cubic (blossom t1 t1 t2) (blossom t1 t2 t2) }

/-- Parametric-uniform sample points used by the length approximator: the
point at parameter i divided by steps for i from 0 to steps.  This is the
assertion-free form of the lookup table of lookup.rs lines 112-125 used on
the length path (lookup.rs line 138), where the step count is at least 1 and
every sampled parameter lies inside the unit interval, so the range
assertion of t_value_to_parametric always passes. -/
def Bezier.lut_points (c : Bezier) (steps : ℕ) : List DVec2 :=
  (List.range (steps + 1)).map fun i =>
    c.unrestricted_parametric_evaluate ((i : ℚ) / (steps : ℚ))

/-- Sum of the Euclidean distances of consecutive points of a list; models
the windows(2) chord sum of lookup.rs line 139. -/
def windows_sum : List DVec2 → ℚ
  | a :: b :: rest => (b - a).length + windows_sum (b :: rest)
  | _ => 0

/-- Polyline approximation of arc length; direct translation of
Bezier::length, lookup.rs lines 130-144: exact endpoint distance for the
Linear variant, chord sum over a parametric-uniform lookup table otherwise,
with default subdivision count DEFAULT_LENGTH_SUBDIVISIONS. -/
def Bezier.length (c : Bezier) (num_subdivisions : Option ℕ) : ℚ :=
  match c.handles with
  | BezierHandles.Linear => (c.start - c.end_).length
  | _ => windows_sum (c.lut_points (num_subdivisions.getD DEFAULT_LENGTH_SUBDIVISIONS))

/-- The per-iteration measured length of the bisection loop, extracted from
lookup.rs lines 42-49: when the target euclidean fraction is below one half
the length of the sub-curve trimmed to the interval from 0 to mid, otherwise
the total length minus the length of the sub-curve trimmed to the interval
from mid to 1. -/
def Bezier.current_length (c : Bezier) (euclidean_t total_length : ℚ)
    (subdivisions : ℕ) (mid : ℚ) : ℚ :=
  if euclidean_t < 1 / 2 then
    (c.trim 0 mid).length (some subdivisions)
  else
    total_length - (c.trim mid 1).length (some subdivisions)

/-- The bisection loop of lookup.rs lines 38-59, with an explicit fuel
argument standing in for the termination of the source loop: the while
condition low strictly below high is checked first, the midpoint is
recomputed, the loop breaks when the measured euclidean fraction is within
error of the target, and otherwise the bracket is narrowed.  In the source
the loop can only stop through these two exits; over exact rationals the
bracket never collapses, so the recursion is bounded by fuel and returns the
current mid when the fuel runs out. -/
def Bezier.euclidean_loop (c : Bezier) (euclidean_t error total_length : ℚ)
    (subdivisions : ℕ) : ℕ → ℚ → ℚ → ℚ → ℚ
  | 0, _, mid, _ => mid
  | fuel + 1, low, mid, high =>
      if low < high then
        let mid2 := (low + high) / 2
        let current_euclidean_t :=
          c.current_length euclidean_t total_length subdivisions mid2 / total_length
        if f64_compare current_euclidean_t euclidean_t error then mid2
        else if current_euclidean_t < euclidean_t then
          c.euclidean_loop euclidean_t error total_length subdivisions fuel mid2 mid2 high
        else
          c.euclidean_loop euclidean_t error total_length subdivisions fuel low mid2 mid2
      else mid

/-- Conversion of a euclidean arc-length fraction to a parametric value given
the total curve length; direct translation of
Bezier::euclidean_to_parametric_with_total_length, lookup.rs lines 16-62:
two boundary early exits, the direction flag and the subdivision count
computed once, then the bisection loop started from the bracket 0, 1 with
mid initialised to one half. -/
def Bezier.euclidean_to_parametric_with_total_length (c : Bezier)
    (euclidean_t error total_length : ℚ) (fuel : ℕ) : ℚ :=
  if euclidean_t < error then 0
  else if 1 - euclidean_t < error then 1
  else
    let subdivisions :=
      (max (round (|euclidean_t - 1 / 2| * (DEFAULT_LENGTH_SUBDIVISIONS : ℚ))) 1).toNat
    c.euclidean_loop euclidean_t error total_length subdivisions fuel 0 (1 / 2) 1

/-- Conversion of a euclidean fraction to a parametric value; direct
translation of Bezier::euclidean_to_parametric, lookup.rs lines 8-11, which
first computes the total length with the default subdivision count. -/
def Bezier.euclidean_to_parametric (c : Bezier) (euclidean_t error : ℚ)
    (fuel : ℕ) : ℚ :=
  c.euclidean_to_parametric_with_total_length euclidean_t error (c.length none) fuel

/-- Resolution of a TValue descriptor to a parametric value; direct
translation of Bezier::t_value_to_parametric, lookup.rs lines 65-80.  Each
arm first asserts that the payload lies in the closed unit interval; the
panic of a failed Rust assert is modelled as none. -/
def Bezier.t_value_to_parametric (c : Bezier) (t : TValue) (fuel : ℕ) : Option ℚ :=
  match t with
  | TValue.Parametric t =>
      if 0 ≤ t ∧ t ≤ 1 then some t else none
  | TValue.Euclidean t =>
      if 0 ≤ t ∧ t ≤ 1 then
        some (c.euclidean_to_parametric t DEFAULT_EUCLIDEAN_ERROR_BOUND fuel)
      else none
  | TValue.EuclideanWithinError t error =>
      if 0 ≤ t ∧ t ≤ 1 then some (c.euclidean_to_parametric t error fuel) else none

/-- Point evaluation of a descriptor; direct translation of
Bezier::evaluate, lookup.rs lines 104-107: resolve the descriptor, then
evaluate the basis polynomial. -/
def Bezier.evaluate (c : Bezier) (t : TValue) (fuel : ℕ) : Option DVec2 :=
  (c.t_value_to_parametric t fuel).map c.unrestricted_parametric_evaluate

/-- The sampled parameter position i divided by steps of the lookup-table
generator, lookup.rs lines 119-120.  In the source the division is an f64
division: when steps is 0 it yields NaN (for i equal 0) or infinity, values
that fail the closed-unit-interval assertion of t_value_to_parametric and
so abort the call; the model accordingly rejects at the division site, and
agrees exactly with the source division when steps is at least 1. -/
def sample_parameter (i steps : ℕ) : Option ℚ :=
  if steps = 0 then none else some ((i : ℚ) / (steps : ℚ))

/-- Sequencing helper: maps a fallible function over a list, failing as soon
as one element fails, as a Rust iterator maps a panicking closure. -/
def traverse_option {α β : Type} (f : α → Option β) : List α → Option (List β)
  | [] => some []
  | a :: rest => do
      let b ← f a
      let bs ← traverse_option f rest
      pure (b :: bs)

/-- Lookup-table generation; direct translation of
Bezier::compute_lookup_table, lookup.rs lines 112-125: defaulted step count
and mode, then one evaluation of the descriptor i divided by steps under the
selected mode for each i from 0 to steps. -/
def Bezier.compute_lookup_table (c : Bezier) (steps : Option ℕ)
    (tvalue_type : Option TValueType) (fuel : ℕ) : Option (List DVec2) :=
  let steps := steps.getD DEFAULT_LUT_STEP_SIZE
  let ty := tvalue_type.getD TValueType.Parametric
  traverse_option
    (fun i => do
      let tq ← sample_parameter i steps
      let tv := match ty with
        | TValueType.Parametric => TValue.Parametric tq
        | TValueType.Euclidean => TValue.Euclidean tq
      c.evaluate tv fuel)
    (List.range (steps + 1))

/-- Modelled from the spec: the optional tuning record accepted by project
(spec section 4.6 names the argument but specifies no contents, and the body
of project never reads it); the fields stand in for an arbitrary
search-tuning record. -/
structure ProjectionOptions where
  lut_size : ℕ
  convergence_epsilon : ℚ
  convergence_limit : ℕ
  iteration_limit : ℕ
  deriving DecidableEq, Repr

/-- One step of the candidate scan of project, lookup.rs lines 157-163: the
running pair holds the best parameter so far and its squared distance, and a
candidate replaces it exactly when its squared distance is strictly
smaller. -/
def Bezier.project_step (c : Bezier) (point : DVec2) (fuel : ℕ)
    (state : ℚ × ℚ) (time : ℚ) : Option (ℚ × ℚ) := do
  let p ← c.evaluate (TValue.Parametric time) fuel
  let distance := p.distance_squared point
  pure (if distance < state.2 then (time, distance) else state)

/-- Projection of a point onto the curve; direct translation of
Bezier::project, lookup.rs lines 149-169, with the candidate list produced
by the external normals_to_point root-finder passed in explicitly (the spec,
section 6, specifies that collaborator only by its contract).  The start
parameter 0 seeds the scan, every critical parameter is tried in order with
strict improvement, and the end parameter 1 replaces the result only when
strictly closer.  The options argument is never read, as in the source. -/
def Bezier.project (c : Bezier) (point : DVec2) (critical : List ℚ)
    (options : Option ProjectionOptions) (fuel : ℕ) : Option ℚ := do
  let p0 ← c.evaluate (TValue.Parametric 0) fuel
  let init : ℚ × ℚ := (0, p0.distance_squared point)
  let st ← critical.foldlM (c.project_step point fuel) init
  let p1 ← c.evaluate (TValue.Parametric 1) fuel
  pure (if p1.distance_squared point < st.2 then 1 else st.1)

/-- Concrete linear curve from the origin to the point with coordinates 1
and 0, used by closed witness and counterexample statements. -/
def exampleLinear : Bezier :=
  { start := ⟨0, 0⟩, end_ := ⟨1, 0⟩, handles := BezierHandles.Linear }

/-- Evaluation at parameter 0 yields the start endpoint, for every handle
variant. -/
theorem Bezier.unrestricted_parametric_evaluate_zero (c : Bezier) :
    c.unrestricted_parametric_evaluate 0 = c.start := by
  obtain ⟨s, e, h⟩ := c
  cases h <;>
    (refine DVec2.ext2 ?_ ?_) <;>
    simp only [Bezier.unrestricted_parametric_evaluate, DVec2.lerp, DVec2.add_def,
      DVec2.sub_def, DVec2.smul_def] <;>
    ring

/-- Evaluation at parameter 1 yields the end endpoint, for every handle
variant. -/
theorem Bezier.unrestricted_parametric_evaluate_one (c : Bezier) :
    c.unrestricted_parametric_evaluate 1 = c.end_ := by
  obtain ⟨s, e, h⟩ := c
  cases h <;>
    (refine DVec2.ext2 ?_ ?_) <;>
    simp only [Bezier.unrestricted_parametric_evaluate, DVec2.lerp, DVec2.add_def,
      DVec2.sub_def, DVec2.smul_def] <;>
    ring

/-- Claim C7: for every curve of any degree (linear, quadratic, cubic),
evaluating at Parametric 0 returns exactly the start endpoint and evaluating
at Parametric 1 returns exactly the end endpoint. -/
theorem claim_C7_evaluate_endpoints (c : Bezier) (fuel : ℕ) :
    c.evaluate (TValue.Parametric 0) fuel = some c.start ∧
    c.evaluate (TValue.Parametric 1) fuel = some c.end_ := by
  constructor <;>
    simp [Bezier.evaluate, Bezier.t_value_to_parametric,
      Bezier.unrestricted_parametric_evaluate_zero,
      Bezier.unrestricted_parametric_evaluate_one]

/-- Claim C9: for every curve, query point, candidate list and fuel, project
returns the same value for every value of its options argument, including
none: the body of project never reads the options, so the result is
syntactically independent of it. -/
theorem claim_C9_project_ignores_options (c : Bezier) (point : DVec2)
    (critical : List ℚ) (fuel : ℕ) (o1 o2 : Option ProjectionOptions) :
    c.project point critical o1 fuel = c.project point critical o2 fuel := rfl

/-- Claim C10: for every curve, mode and fuel, calling compute_lookup_table
with steps 0 fails rather than returning a one-point table: the sampled
position 0 divided by 0 is the f64 value NaN, which fails the closed-unit
range assertion on the parametric payload, modelled here by the rejection of
the zero-steps division, so the whole call yields none. -/
theorem claim_C10_zero_steps_fails (c : Bezier) (ty : Option TValueType) (fuel : ℕ) :
    c.compute_lookup_table (some 0) ty fuel = none := by
  simp [Bezier.compute_lookup_table, traverse_option, sample_parameter,
    List.range_succ, Option.bind]

/-- Claim C4, amended: for every curve, target fraction, error, total length
and fuel, if the target fraction is strictly below the error the conversion
returns exactly 0 without searching, and otherwise, if 1 minus the target
fraction is strictly below the error, it returns exactly 1 without
searching; the two boundary checks are ordered, the start check first.  The
conclusion holds for every fuel value, which expresses that no search is
performed. -/
theorem claim_C4_early_exit (c : Bezier) (t err L : ℚ) (fuel : ℕ) (hpos : 0 < err) :
    (t < err → c.euclidean_to_parametric_with_total_length t err L fuel = 0) ∧
    (err ≤ t → 1 - t < err →
      c.euclidean_to_parametric_with_total_length t err L fuel = 1) := by
  constructor
  · intro h
    simp [Bezier.euclidean_to_parametric_with_total_length, h]
  · intro h1 h2
    have h3 : ¬ t < err := not_lt.mpr h1
    simp [Bezier.euclidean_to_parametric_with_total_length, h3, h2]

/-- Closed witness for claim C4: both early exits fire at concrete inputs. -/
theorem claim_C4_early_exit_witness :
    (0 < (1/10 : ℚ) ∧ (1/100 : ℚ) < 1/10 ∧
      exampleLinear.euclidean_to_parametric_with_total_length (1/100) (1/10) 1 0 = 0) ∧
    (0 < (1/10 : ℚ) ∧ (1/10 : ℚ) ≤ 99/100 ∧ 1 - (99/100 : ℚ) < 1/10 ∧
      exampleLinear.euclidean_to_parametric_with_total_length (99/100) (1/10) 1 0 = 1) :=
  ⟨⟨by norm_num, by norm_num,
      (claim_C4_early_exit exampleLinear (1/100) (1/10) 1 0 (by norm_num)).1 (by norm_num)⟩,
    ⟨by norm_num, by norm_num, by norm_num,
      (claim_C4_early_exit exampleLinear (99/100) (1/10) 1 0 (by norm_num)).2
        (by norm_num) (by norm_num)⟩⟩

/-- Counterexample for claim C4 as stated: with target fraction 3/10, error
8/10 and any total length, 1 minus the target fraction is strictly below the
error, yet the conversion returns 0, not 1, because the start-side check is
tested first and also holds. -/
theorem claim_C4_counterexample :
    0 < (8/10 : ℚ) ∧ 1 - (3/10 : ℚ) < 8/10 ∧
    exampleLinear.euclidean_to_parametric_with_total_length (3/10) (8/10) 1 0 ≠ 1 := by
  refine ⟨by norm_num, by norm_num, ?_⟩
  simp [Bezier.euclidean_to_parametric_with_total_length]
  norm_num

/-- Claim C8: for every curve, payload and error, a descriptor whose payload
lies outside the closed unit interval is rejected by the range assertion of
t_value_to_parametric before any computation, in all three variants, and a
Parametric descriptor with payload inside the interval is returned
unchanged. -/
theorem claim_C8_range_assertion (c : Bezier) (t err : ℚ) (fuel : ℕ) :
    (¬ (0 ≤ t ∧ t ≤ 1) →
      c.t_value_to_parametric (TValue.Parametric t) fuel = none ∧
      c.t_value_to_parametric (TValue.Euclidean t) fuel = none ∧
      c.t_value_to_parametric (TValue.EuclideanWithinError t err) fuel = none) ∧
    (0 ≤ t ∧ t ≤ 1 → c.t_value_to_parametric (TValue.Parametric t) fuel = some t) := by
  constructor
  · intro h
    refine ⟨?_, ?_, ?_⟩ <;> simp [Bezier.t_value_to_parametric, h]
  · intro h
    simp [Bezier.t_value_to_parametric, h]

/-- Closed witness for claim C8: the payload 2 is rejected in all three
variants and the payload one half is passed through unchanged. -/
theorem claim_C8_range_assertion_witness :
    (¬ ((0 : ℚ) ≤ 2 ∧ (2 : ℚ) ≤ 1) ∧
      exampleLinear.t_value_to_parametric (TValue.Parametric 2) 0 = none ∧
      exampleLinear.t_value_to_parametric (TValue.Euclidean 2) 0 = none ∧
      exampleLinear.t_value_to_parametric (TValue.EuclideanWithinError 2 (1/10)) 0 = none) ∧
    ((0 : ℚ) ≤ 1/2 ∧ (1/2 : ℚ) ≤ 1 ∧
      exampleLinear.t_value_to_parametric (TValue.Parametric (1/2)) 0 = some (1/2)) :=
  ⟨⟨by norm_num,
      (claim_C8_range_assertion exampleLinear 2 (1/10) 0).1 (by norm_num)⟩,
    ⟨by norm_num, by norm_num,
      (claim_C8_range_assertion exampleLinear (1/2) 0 0).2 ⟨by norm_num, by norm_num⟩⟩⟩

/-- Claim C5: the per-iteration measured length of the euclidean-to-
parametric bisection equals the length of the sub-curve trimmed to the
interval from 0 to mid when the target fraction is nearer to the start of
the domain, and the total length minus the length of the sub-curve trimmed
to the interval from mid to 1 otherwise; the code tests the target against
one half, which for a target in the unit interval is exactly the comparison
of the distances to the two domain endpoints.  The loop of euclidean_loop
applies current_length at every iteration by definition. -/
theorem claim_C5_direction_adaptive (c : Bezier) (t L : ℚ) (subdiv : ℕ) (mid : ℚ)
    (h0 : 0 ≤ t) (h1 : t ≤ 1) :
    c.current_length t L subdiv mid =
      if |t - 0| < |1 - t| then (c.trim 0 mid).length (some subdiv)
      else L - (c.trim mid 1).length (some subdiv) := by
  have habs1 : |t - 0| = t := by rw [sub_zero, abs_of_nonneg h0]
  have habs2 : |1 - t| = 1 - t := abs_of_nonneg (by linarith)
  have hiff : t < 1 / 2 ↔ |t - 0| < |1 - t| := by
    rw [habs1, habs2]
    constructor <;> intro h <;> linarith
  rw [Bezier.current_length]
  exact if_congr hiff rfl rfl

/-- Closed witness for claim C5 at the target fraction 1/4. -/
theorem claim_C5_direction_adaptive_witness :
    0 ≤ (1/4 : ℚ) ∧ (1/4 : ℚ) ≤ 1 ∧
    exampleLinear.current_length (1/4) 5 1 (1/2) =
      if |(1/4 : ℚ) - 0| < |1 - (1/4 : ℚ)| then (exampleLinear.trim 0 (1/2)).length (some 1)
      else 5 - (exampleLinear.trim (1/2) 1).length (some 1) :=
  ⟨by norm_num, by norm_num,
    claim_C5_direction_adaptive exampleLinear (1/4) 5 1 (1/2) (by norm_num) (by norm_num)⟩

/-- One unfolding of the bisection loop when the supplied total length is 0:
the measured euclidean fraction is the division of the measured length by 0,
which the exact-rational embedding evaluates to 0 whatever the measured
length is, so the step is independent of the trimmed lengths. -/
theorem euclidean_loop_total_length_zero (c : Bezier) (t e : ℚ) (s fuel : ℕ)
    (low mid high : ℚ) :
    c.euclidean_loop t e 0 s (fuel + 1) low mid high =
      if low < high then
        if f64_compare 0 t e then (low + high) / 2
        else if (0 : ℚ) < t then
          c.euclidean_loop t e 0 s fuel ((low + high) / 2) ((low + high) / 2) high
        else c.euclidean_loop t e 0 s fuel low ((low + high) / 2) ((low + high) / 2)
      else mid := by
  simp only [Bezier.euclidean_loop, div_zero]

/-- Claim C2, behaviour at the failing input: the conversion with total
length 0 is not rejected; the call runs the bisection loop (here with fuel
3) and returns an ordinary parametric value.  In the source the division of
the measured length by the zero total length produces a non-finite f64
value and the loop walks the bracket; in this exact-rational embedding the
division by zero evaluates to 0, so the loop walks the lower bound upward
and returns the bracket midpoint when the fuel runs out; under neither
semantics is a domain error raised. -/
theorem claim_C2_no_rejection :
    exampleLinear.euclidean_to_parametric_with_total_length (1/2) (1/4) 0 3 = 7/8 := by
  have h1 : ¬ ((1 : ℚ)/2 < 1/4) := by norm_num
  have h2 : ¬ (1 - (1 : ℚ)/2 < 1/4) := by norm_num
  rw [Bezier.euclidean_to_parametric_with_total_length, if_neg h1, if_neg h2]
  have hc : f64_compare 0 (1/2) (1/4) = false := by
    simp only [f64_compare, decide_eq_false_iff_not]
    rw [zero_sub, abs_neg, abs_of_nonneg (by norm_num : (0 : ℚ) ≤ 1/2)]
    norm_num
  have hpos : (0 : ℚ) < 1/2 := by norm_num
  rw [show (3 : ℕ) = 2 + 1 from rfl, euclidean_loop_total_length_zero,
    if_pos (by norm_num : (0 : ℚ) < 1), hc]
  simp only [Bool.false_eq_true, if_false, if_pos hpos]
  norm_num
  rw [show (2 : ℕ) = 1 + 1 from rfl, euclidean_loop_total_length_zero,
    if_pos (by norm_num : (1 : ℚ)/2 < 1), hc]
  simp only [Bool.false_eq_true, if_false, if_pos hpos]
  norm_num
  rw [show (1 : ℕ) = 0 + 1 from rfl, euclidean_loop_total_length_zero,
    if_pos (by norm_num : (3 : ℚ)/4 < 1), hc]
  simp only [Bool.false_eq_true, if_false, if_pos hpos]
  norm_num
  simp [Bezier.euclidean_loop]

/-- Sequencing a fallible map succeeds elementwise: when the function
succeeds on every element of the list, the traversal returns the list of
results. -/
theorem traverse_option_eq_map {α β : Type} (f : α → Option β) (g : α → β) :
    ∀ l : List α, (∀ a ∈ l, f a = some (g a)) →
      traverse_option f l = some (l.map g)
  | [], _ => rfl
  | a :: rest, h => by
    have ha : f a = some (g a) := h a (List.mem_cons_self a rest)
    have hrest : traverse_option f rest = some (rest.map g) :=
      traverse_option_eq_map f g rest fun b hb => h b (List.mem_cons_of_mem a hb)
    simp [traverse_option, ha, hrest]

/-- Conversion of the euclidean fraction 0 returns the parametric value 0
through the first boundary early exit, for every positive error. -/
theorem euclidean_to_parametric_with_total_length_zero_frac (c : Bezier)
    (e L : ℚ) (fuel : ℕ) (he : 0 < e) :
    c.euclidean_to_parametric_with_total_length 0 e L fuel = 0 := by
  simp [Bezier.euclidean_to_parametric_with_total_length, he]

/-- Conversion of the euclidean fraction 1 returns the parametric value 1
through the second boundary early exit, for every positive error at most
1. -/
theorem euclidean_to_parametric_with_total_length_one_frac (c : Bezier)
    (e L : ℚ) (fuel : ℕ) (he : 0 < e) (he1 : e ≤ 1) :
    c.euclidean_to_parametric_with_total_length 1 e L fuel = 1 := by
  have h1 : ¬ ((1 : ℚ) < e) := not_lt.mpr he1
  simp [Bezier.euclidean_to_parametric_with_total_length, h1, he]

/-- The descriptor built by the lookup-table generator for a sampled
position, lookup.rs lines 118-121: a Parametric or a Euclidean descriptor
according to the selected mode. -/
def mode_tvalue (ty : TValueType) (q : ℚ) : TValue :=
  match ty with
  | TValueType.Parametric => TValue.Parametric q
  | TValueType.Euclidean => TValue.Euclidean q

/-- The parametric value that a lookup-table descriptor resolves to: the
payload itself in Parametric mode, the converted value in Euclidean mode. -/
def Bezier.mode_resolve (c : Bezier) (ty : TValueType) (q : ℚ) (fuel : ℕ) : ℚ :=
  match ty with
  | TValueType.Parametric => q
  | TValueType.Euclidean => c.euclidean_to_parametric q DEFAULT_EUCLIDEAN_ERROR_BOUND fuel

/-- Resolution of the parameter descriptor used by the lookup table: for a
payload inside the closed unit interval both modes succeed, returning the
point at the resolved parametric value. -/
theorem evaluate_mode_some (c : Bezier) (ty : TValueType) (q : ℚ) (fuel : ℕ)
    (h0 : 0 ≤ q) (h1 : q ≤ 1) :
    c.evaluate (mode_tvalue ty q) fuel =
      some (c.unrestricted_parametric_evaluate (c.mode_resolve ty q fuel)) := by
  cases ty <;>
    simp [mode_tvalue, Bezier.mode_resolve, Bezier.evaluate,
      Bezier.t_value_to_parametric, h0, h1]

/-- Claim C6, amended: for every curve, every number of steps n at least 1,
either mode and every fuel, the lookup table is returned, has exactly n + 1
points, starts with the start endpoint and ends with the end endpoint, and
its entry i is the evaluation of the descriptor i divided by n under the
selected mode.  (For n equal 0 the call fails instead of returning a
one-point table; see the counterexample.) -/
theorem claim_C6_lookup_table (c : Bezier) (n : ℕ) (ty : TValueType) (fuel : ℕ)
    (hn : 1 ≤ n) :
    ∃ pts : List DVec2,
      c.compute_lookup_table (some n) (some ty) fuel = some pts ∧
      pts.length = n + 1 ∧
      pts.head? = some c.start ∧
      pts.getLast? = some c.end_ ∧
      ∀ i : ℕ, i ≤ n →
        pts.get? i = c.evaluate (mode_tvalue ty ((i : ℚ) / (n : ℚ))) fuel := by
  have hn0 : n ≠ 0 := Nat.one_le_iff_ne_zero.mp hn
  have hnq : (0 : ℚ) < (n : ℚ) := by exact_mod_cast Nat.pos_of_ne_zero hn0
  have hrange : ∀ i : ℕ, i ≤ n → (0 : ℚ) ≤ (i : ℚ) / (n : ℚ) ∧ (i : ℚ) / (n : ℚ) ≤ 1 := by
    intro i hi
    constructor
    · positivity
    · rw [div_le_one hnq]
      exact_mod_cast hi
  have hsample : ∀ i : ℕ, sample_parameter i n = some ((i : ℚ) / (n : ℚ)) := by
    intro i
    simp [sample_parameter, hn0]
  have hdefault : (0 : ℚ) < DEFAULT_EUCLIDEAN_ERROR_BOUND ∧
      DEFAULT_EUCLIDEAN_ERROR_BOUND ≤ 1 := by
    constructor <;> norm_num [DEFAULT_EUCLIDEAN_ERROR_BOUND]
  have hentry : ∀ i ∈ List.range (n + 1),
      (do
        let tq ← sample_parameter i n
        let tv := mode_tvalue ty tq
        c.evaluate tv fuel) =
        some (c.unrestricted_parametric_evaluate
          (c.mode_resolve ty ((i : ℚ) / (n : ℚ)) fuel)) := by
    intro i hi
    have hi2 : i ≤ n := Nat.lt_succ_iff.mp (List.mem_range.mp hi)
    obtain ⟨h0, h1⟩ := hrange i hi2
    rw [hsample i]
    simpa using evaluate_mode_some c ty ((i : ℚ) / (n : ℚ)) fuel h0 h1
  have htable : c.compute_lookup_table (some n) (some ty) fuel =
      some ((List.range (n + 1)).map fun (i : ℕ) =>
        c.unrestricted_parametric_evaluate (c.mode_resolve ty ((i : ℚ) / (n : ℚ)) fuel)) := by
    have := traverse_option_eq_map
      (fun i => do
        let tq ← sample_parameter i n
        let tv := mode_tvalue ty tq
        c.evaluate tv fuel)
      (fun (i : ℕ) => c.unrestricted_parametric_evaluate
        (c.mode_resolve ty ((i : ℚ) / (n : ℚ)) fuel))
      (List.range (n + 1)) hentry
    simp only [Bezier.compute_lookup_table, Option.getD_some]
    rw [← this]
    rfl
  refine ⟨_, htable, ?_, ?_, ?_, ?_⟩
  · simp
  · rw [List.range_succ_eq_map, List.map_cons, List.head?_cons, Option.some_inj]
    have h00 : ((0 : ℕ) : ℚ) / (n : ℚ) = 0 := by simp
    rw [h00]
    cases ty
    · exact c.unrestricted_parametric_evaluate_zero
    · rw [Bezier.mode_resolve, Bezier.euclidean_to_parametric,
        euclidean_to_parametric_with_total_length_zero_frac c _ _ fuel hdefault.1]
      exact c.unrestricted_parametric_evaluate_zero
  · rw [List.range_succ, List.map_append, List.map_cons, List.map_nil,
      List.getLast?_concat, Option.some_inj]
    have hnn : ((n : ℕ) : ℚ) / (n : ℚ) = 1 := div_self (ne_of_gt hnq)
    rw [hnn]
    cases ty
    · exact c.unrestricted_parametric_evaluate_one
    · rw [Bezier.mode_resolve, Bezier.euclidean_to_parametric,
        euclidean_to_parametric_with_total_length_one_frac c _ _ fuel
          hdefault.1 hdefault.2]
      exact c.unrestricted_parametric_evaluate_one
  · intro i hi
    have hlt : i < n + 1 := Nat.lt_succ_of_le hi
    obtain ⟨h0, h1⟩ := hrange i hi
    rw [List.get?_map, List.get?_range hlt,
      evaluate_mode_some c ty ((i : ℚ) / (n : ℚ)) fuel h0 h1]
    rfl

/-- Closed witness for claim C6 at one step in Parametric mode. -/
theorem claim_C6_lookup_table_witness :
    1 ≤ 1 ∧
    ∃ pts : List DVec2,
      exampleLinear.compute_lookup_table (some 1) (some TValueType.Parametric) 0 = some pts ∧
      pts.length = 1 + 1 ∧
      pts.head? = some exampleLinear.start ∧
      pts.getLast? = some exampleLinear.end_ ∧
      ∀ i : ℕ, i ≤ 1 →
        pts.get? i =
          exampleLinear.evaluate (mode_tvalue TValueType.Parametric ((i : ℚ) / (1 : ℚ))) 0 :=
  ⟨le_refl 1, claim_C6_lookup_table exampleLinear 1 TValueType.Parametric 0 (le_refl 1)⟩

/-- Counterexample for claim C6 as stated: at steps 0 the call does not
return a table at all (the sampled position 0 divided by 0 fails the range
assertion), so no table of length 1 with the required endpoints exists. -/
theorem claim_C6_counterexample :
    ¬ ∃ pts : List DVec2,
      exampleLinear.compute_lookup_table (some 0) (some TValueType.Parametric) 0 = some pts ∧
      pts.length = 0 + 1 ∧
      pts.head? = some exampleLinear.start ∧
      pts.getLast? = some exampleLinear.end_ := by
  rintro ⟨pts, h, -, -, -⟩
  simp [Bezier.compute_lookup_table, traverse_option, sample_parameter,
    List.range_succ, Option.bind] at h

/-- Evaluation of a Parametric descriptor with payload inside the closed
unit interval succeeds and returns the basis evaluation at the payload. -/
theorem evaluate_parametric_some (c : Bezier) (t : ℚ) (fuel : ℕ)
    (h0 : 0 ≤ t) (h1 : t ≤ 1) :
    c.evaluate (TValue.Parametric t) fuel =
      some (c.unrestricted_parametric_evaluate t) := by
  simp [Bezier.evaluate, Bezier.t_value_to_parametric, h0, h1]

/-- Invariant of the candidate scan of project: starting from a state whose
recorded distance is the squared distance of its recorded parameter, the
scan over a list of candidates inside the closed unit interval succeeds and
yields a state that still records its own distance, whose parameter is the
initial one or one of the candidates, and whose distance is at most the
initial distance and at most the distance of every candidate. -/
theorem project_fold_spec (c : Bezier) (point : DVec2) (fuel : ℕ) :
    ∀ (critical : List ℚ) (st : ℚ × ℚ),
      (∀ t ∈ critical, 0 ≤ t ∧ t ≤ 1) →
      st.2 = (c.unrestricted_parametric_evaluate st.1).distance_squared point →
      ∃ st2 : ℚ × ℚ,
        critical.foldlM (c.project_step point fuel) st = some st2 ∧
        st2.2 = (c.unrestricted_parametric_evaluate st2.1).distance_squared point ∧
        (st2.1 = st.1 ∨ st2.1 ∈ critical) ∧
        st2.2 ≤ st.2 ∧
        ∀ t ∈ critical,
          st2.2 ≤ (c.unrestricted_parametric_evaluate t).distance_squared point
  | [], st, _, hst => ⟨st, rfl, hst, Or.inl rfl, le_refl _, by simp⟩
  | a :: rest, st, h, hst => by
    obtain ⟨ha0, ha1⟩ := h a (List.mem_cons_self a rest)
    have hstep : c.project_step point fuel st a =
        some (if (c.unrestricted_parametric_evaluate a).distance_squared point < st.2
          then (a, (c.unrestricted_parametric_evaluate a).distance_squared point)
          else st) := by
      rw [Bezier.project_step, evaluate_parametric_some c a fuel ha0 ha1]
      rfl
    by_cases hlt : (c.unrestricted_parametric_evaluate a).distance_squared point < st.2
    · obtain ⟨st2, hfold, hinv, hmem, hle, hall⟩ :=
        project_fold_spec c point fuel rest
          (a, (c.unrestricted_parametric_evaluate a).distance_squared point)
          (fun t ht => h t (List.mem_cons_of_mem a ht)) rfl
      refine ⟨st2, ?_, hinv, ?_, le_trans hle (le_of_lt hlt), ?_⟩
      · rw [List.foldlM_cons, hstep, if_pos hlt]
        simpa using hfold
      · rcases hmem with hm | hm
        · refine Or.inr ?_
          rw [hm]
          exact List.mem_cons_self a rest
        · exact Or.inr (List.mem_cons_of_mem a hm)
      · intro t ht
        rcases List.mem_cons.mp ht with rfl | hm
        · exact hle
        · exact hall t hm
    · obtain ⟨st2, hfold, hinv, hmem, hle, hall⟩ :=
        project_fold_spec c point fuel rest st
          (fun t ht => h t (List.mem_cons_of_mem a ht)) hst
      refine ⟨st2, ?_, hinv, ?_, hle, ?_⟩
      · rw [List.foldlM_cons, hstep, if_neg hlt]
        simpa using hfold
      · rcases hmem with hm | hm
        · exact Or.inl hm
        · exact Or.inr (List.mem_cons_of_mem a hm)
      · intro t ht
        rcases List.mem_cons.mp ht with rfl | hm
        · exact le_trans hle (not_lt.mp hlt)
        · exact hall t hm

/-- Claim C1: for every curve, query point, options value, fuel, and every
candidate list produced by the normals_to_point collaborator with all
candidates inside the closed unit interval, project returns a parameter
drawn from the candidate set consisting of 0, 1 and the candidates, and no
member of that set has a strictly smaller squared distance to the query
point; the tie-break is that of the source scan (first-found wins, the start
parameter seeding the scan and the end parameter replacing it only when
strictly closer) and is deterministic because project is a pure function. -/
theorem claim_C1_project_minimizes (c : Bezier) (point : DVec2) (critical : List ℚ)
    (options : Option ProjectionOptions) (fuel : ℕ)
    (h : ∀ t ∈ critical, 0 ≤ t ∧ t ≤ 1) :
    ∃ r : ℚ, c.project point critical options fuel = some r ∧
      (r = 0 ∨ r = 1 ∨ r ∈ critical) ∧
      ∀ t : ℚ, (t = 0 ∨ t = 1 ∨ t ∈ critical) →
        (c.unrestricted_parametric_evaluate r).distance_squared point ≤
          (c.unrestricted_parametric_evaluate t).distance_squared point := by
  have e0 : c.evaluate (TValue.Parametric 0) fuel =
      some (c.unrestricted_parametric_evaluate 0) :=
    evaluate_parametric_some c 0 fuel (le_refl 0) (by norm_num)
  have e1 : c.evaluate (TValue.Parametric 1) fuel =
      some (c.unrestricted_parametric_evaluate 1) :=
    evaluate_parametric_some c 1 fuel (by norm_num) (le_refl 1)
  obtain ⟨st2, hfold, hinv, hmem, hle, hall⟩ :=
    project_fold_spec c point fuel critical
      (0, (c.unrestricted_parametric_evaluate 0).distance_squared point) h rfl
  refine ⟨if (c.unrestricted_parametric_evaluate 1).distance_squared point < st2.2
      then 1 else st2.1, ?_, ?_, ?_⟩
  · rw [Bezier.project, e0]
    simp only [Option.pure_def, Option.bind_eq_bind, Option.some_bind]
    rw [hfold]
    simp only [Option.some_bind]
    rw [e1]
    simp only [Option.some_bind]
  · by_cases hlt : (c.unrestricted_parametric_evaluate 1).distance_squared point < st2.2
    · rw [if_pos hlt]
      exact Or.inr (Or.inl rfl)
    · rw [if_neg hlt]
      rcases hmem with hm | hm
      · exact Or.inl hm
      · exact Or.inr (Or.inr hm)
  · intro t ht
    by_cases hlt : (c.unrestricted_parametric_evaluate 1).distance_squared point < st2.2
    · rw [if_pos hlt]
      rcases ht with rfl | rfl | hm
      · exact le_of_lt (lt_of_lt_of_le hlt hle)
      · exact le_refl _
      · exact le_of_lt (lt_of_lt_of_le hlt (hall t hm))
    · rw [if_neg hlt, ← hinv]
      rcases ht with rfl | rfl | hm
      · exact hle
      · exact not_lt.mp hlt
      · exact hall t hm

/-- Closed witness for claim C1: projecting the origin onto the example
linear curve with the single candidate parameter one half. -/
theorem claim_C1_project_minimizes_witness :
    (∀ t ∈ [(1/2 : ℚ)], 0 ≤ t ∧ t ≤ 1) ∧
    ∃ r : ℚ, exampleLinear.project ⟨0, 0⟩ [(1/2 : ℚ)] none 0 = some r ∧
      (r = 0 ∨ r = 1 ∨ r ∈ [(1/2 : ℚ)]) ∧
      ∀ t : ℚ, (t = 0 ∨ t = 1 ∨ t ∈ [(1/2 : ℚ)]) →
        (exampleLinear.unrestricted_parametric_evaluate r).distance_squared ⟨0, 0⟩ ≤
          (exampleLinear.unrestricted_parametric_evaluate t).distance_squared ⟨0, 0⟩ := by
  have hmem : ∀ t ∈ [(1/2 : ℚ)], 0 ≤ t ∧ t ≤ 1 := by
    intro t ht
    rw [List.mem_singleton] at ht
    subst ht
    constructor <;> norm_num
  exact ⟨hmem, claim_C1_project_minimizes exampleLinear ⟨0, 0⟩ [(1/2 : ℚ)] none 0 hmem⟩

/-- Claim C3, behaviour at the failing input: with total length 0 and target
fraction one half, every iteration of the bisection loop takes the
low-equals-mid branch and neither exit condition ever fires — the measured
fraction is a division by the zero total length, never within error of the
target, and over exact rationals the midpoint lies strictly between the
bounds so the bracket never collapses.  The loop therefore only stops when
the fuel of the embedding runs out, which witnesses that the secondary
bracket-collapse exit of the source cannot be what bounds it here. -/
theorem claim_C3_loop_never_exits (s fuel : ℕ) (low mid high : ℚ)
    (hlh : low < high) :
    exampleLinear.euclidean_loop (1/2) (1/4) 0 s (fuel + 1) low mid high =
      exampleLinear.euclidean_loop (1/2) (1/4) 0 s fuel
        ((low + high) / 2) ((low + high) / 2) high := by
  have hc : f64_compare 0 (1/2) (1/4) = false := by
    simp only [f64_compare, decide_eq_false_iff_not]
    rw [zero_sub, abs_neg, abs_of_nonneg (by norm_num : (0 : ℚ) ≤ 1/2)]
    norm_num
  rw [euclidean_loop_total_length_zero, if_pos hlh, hc]
  simp only [Bool.false_eq_true, if_false, if_pos (by norm_num : (0 : ℚ) < 1/2)]

/-- Closed witness for claim C3 at the initial bracket of the search. -/
theorem claim_C3_loop_never_exits_witness :
    (0 : ℚ) < 1 ∧
    exampleLinear.euclidean_loop (1/2) (1/4) 0 1 1 0 (1/2) 1 =
      exampleLinear.euclidean_loop (1/2) (1/4) 0 1 0 ((0 + 1) / 2) ((0 + 1) / 2) 1 :=
  ⟨by norm_num, claim_C3_loop_never_exits 1 0 0 (1/2) 1 (by norm_num)⟩

end BezierRs
